import Mathlib

/-!
Verification of the douyin live-crawler session engine
(`src/douyin_live_crawler.py`) against its specification.

The Python source is shallowly embedded: the mutable `self.data` dictionary
becomes the `CrawlerState` structure, Python `set` / `list` values (whose
representation the code inspects with `isinstance`) become the tagged
`StrColl` type, dictionaries become association lists, and each
`_process_*` handler becomes a pure state-transformer.  Machine integers in
this program are Python arbitrary-precision ints, so `Nat`/`Int` are exact.
External calls (protobuf parse, gzip, HTTP, the JS signer) are modelled as
explicit inputs: a parse that can fail returns `Option`, an HTTP fetch is an
`Option String` argument, the signer outcome is part of an attempt-outcome
stream.
-/

namespace Crawler

/-- A Python collection of strings whose runtime representation matters:
the code distinguishes `set` from `list` via `isinstance` checks
(lines 517 and 539) and converts between them (lines 518, 540, 602, 607). -/
inductive StrColl where
  | pset (elems : List String)
  | plist (elems : List String)
  deriving DecidableEq, Repr

/-- Underlying elements of a collection, representation ignored. -/
def StrColl.elems : StrColl → List String
  | .pset l => l
  | .plist l => l

/-- Python `set.add`: insert if not already a member (sets built only through
this function from `[]` stay duplicate-free; insertion order is kept to make
the model deterministic, Python iteration order being unspecified). -/
def setInsert (x : String) (s : List String) : List String :=
  if x ∈ s then s else s ++ [x]

/-- Python `set(l)` applied to a list: deduplicate keeping first occurrences. -/
def pySetOfList (l : List String) : List String :=
  l.foldl (fun acc x => setInsert x acc) []

/-- The `isinstance(c, set)`-guarded conversion `c = set(c)` used by the
handlers (lines 517–518 and 539–540): a list is coerced back to a set,
a set is left alone. -/
def ensureSet : StrColl → StrColl
  | .pset l => .pset l
  | .plist l => .pset (pySetOfList l)

/-- `.add` on a collection; the handlers only call it after `ensureSet`,
so the `plist` branch is unreachable in the program. -/
def collInsert (x : String) : StrColl → StrColl
  | .pset l => .pset (setInsert x l)
  | .plist l => .plist l

/-- Membership in a collection, representation ignored. -/
def collMem (x : String) (c : StrColl) : Prop := x ∈ c.elems

instance (x : String) (c : StrColl) : Decidable (collMem x c) := by
  unfold collMem; infer_instance

/-- The `list(c)` conversion `_save_data` performs in place on each gift's
`senders` when it `isinstance`-checks for `set` (lines 606–607). -/
def collListify : StrColl → StrColl
  | .pset l => .plist l
  | .plist l => .plist l

/-! ### Typed protobuf payloads -/

/-- Protobuf `User` as the handlers read it: `id` and `nick_name`. -/
structure User where
  id : Nat
  nick_name : String
  deriving DecidableEq, Repr

/-- `ChatMessage` (fields read at lines 480–481). -/
structure ChatMessage where
  user : User
  content : String
  deriving DecidableEq, Repr

/-- The `gift` sub-record of a `GiftMessage` (lines 504, 506). -/
structure GiftInfo where
  name : String
  diamond_count : Nat
  deriving DecidableEq, Repr

/-- `GiftMessage` (fields read at lines 501–506). -/
structure GiftMessage where
  user : User
  gift : GiftInfo
  repeat_count : Nat
  deriving DecidableEq, Repr

/-- `MemberMessage` (field read at line 533). -/
structure MemberMessage where
  user : User
  deriving DecidableEq, Repr

/-- `LikeMessage` (field read at line 553). -/
structure LikeMessage where
  count : Nat
  deriving DecidableEq, Repr

/-- `SocialMessage` (field read at line 566). -/
structure SocialMessage where
  user : User
  deriving DecidableEq, Repr

/-- `RoomUserSeqMessage` (field read at line 584). -/
structure RoomUserSeqMessage where
  total_user : Nat
  deriving DecidableEq, Repr

/-- The bytes of a sub-message's `payload` field, at the granularity the
dispatcher needs: either bytes that a given typed decoder accepts, or bytes
on which every typed decode raises (`malformed`). -/
inductive RawPayload where
  | chat (m : ChatMessage)
  | gift (m : GiftMessage)
  | member (m : MemberMessage)
  | like (m : LikeMessage)
  | social (m : SocialMessage)
  | roomUserSeq (m : RoomUserSeqMessage)
  | malformed
  deriving DecidableEq, Repr

/-- `ChatMessage().parse(payload)`: `some` on success, `none` when the
typed decode raises (caught at line 494). -/
def parseChatMessage : RawPayload → Option ChatMessage
  | .chat m => some m
  | _ => none

/-- `GiftMessage().parse(payload)` (failure caught at line 526). -/
def parseGiftMessage : RawPayload → Option GiftMessage
  | .gift m => some m
  | _ => none

/-- `MemberMessage().parse(payload)` (failure caught at line 546). -/
def parseMemberMessage : RawPayload → Option MemberMessage
  | .member m => some m
  | _ => none

/-- `LikeMessage().parse(payload)` (failure caught at line 559). -/
def parseLikeMessage : RawPayload → Option LikeMessage
  | .like m => some m
  | _ => none

/-- `SocialMessage().parse(payload)` (failure caught at line 577). -/
def parseSocialMessage : RawPayload → Option SocialMessage
  | .social m => some m
  | _ => none

/-- `RoomUserSeqMessage().parse(payload)` (failure caught at line 587). -/
def parseRoomUserSeqMessage : RawPayload → Option RoomUserSeqMessage
  | .roomUserSeq m => some m
  | _ => none

/-- One sub-message of a decompressed batch: `{method, payload}`. -/
structure SubMsg where
  method : String
  payload : RawPayload
  deriving DecidableEq, Repr

/-! ### Aggregate state -/

/-- One chat-log entry as built at lines 483–489. -/
structure ChatRecord where
  timestamp : Nat
  user_id : String
  nickname : String
  content : String
  deriving DecidableEq, Repr

/-- One follow-log entry as built at lines 568–572. -/
structure FollowRecord where
  timestamp : Nat
  user_id : String
  nickname : String
  deriving DecidableEq, Repr

/-- Per-gift running statistics: `{"count", "total_value", "senders"}`
(lines 510–514). -/
structure GiftStat where
  count : Nat
  total_value : Nat
  senders : StrColl
  deriving DecidableEq, Repr

/-- The crawler's mutable state: the `self.data` dictionary (lines 182–194)
plus the member dedup set `self.message_cache["members"]` (line 198) and the
`is_live` flag (line 211). -/
structure CrawlerState where
  live_id : String
  date : String
  session : Int
  user_id : String
  nickname : String
  total_viewers : Nat
  total_likes : Nat
  chat_messages : List ChatRecord
  gifts : List (String × GiftStat)
  members : StrColl
  follows : List FollowRecord
  memberCache : List String
  is_live : Bool
  deriving DecidableEq, Repr

/-- Dictionary lookup `self.data["gifts"][name]` on the association-list
model of the gifts dict. -/
def lookupGift (gifts : List (String × GiftStat)) (name : String) :
    Option GiftStat :=
  (gifts.find? (fun p => p.1 == name)).map (·.2)

/-- Dictionary store `self.data["gifts"][name] = stat`: replace in place if
the key exists, append otherwise (Python dicts keep insertion order). -/
def storeGift : List (String × GiftStat) → String → GiftStat →
    List (String × GiftStat)
  | [], name, stat => [(name, stat)]
  | p :: rest, name, stat =>
    if p.1 = name then (name, stat) :: rest
    else p :: storeGift rest name stat

/-- The running statistics recorded for a gift name, read off a state;
a name with no entry reads as the seed `{count: 0, total_value: 0,
senders: set()}` that line 510 would install for it. -/
def giftStatOf (st : CrawlerState) (name : String) : GiftStat :=
  (lookupGift st.gifts name).getD ⟨0, 0, .pset []⟩

/-- The fresh-state construction of `__init__` (lines 182–200) for a given
`live_id`, date and session ordinal. -/
def initState (live_id date : String) (session : Int) : CrawlerState :=
  { live_id := live_id
    date := date
    session := session
    user_id := ""
    nickname := ""
    total_viewers := 0
    total_likes := 0
    chat_messages := []
    gifts := []
    members := .pset []
    follows := []
    memberCache := []
    is_live := true }

/-! ### Aggregator mutations (`_process_*`, lines 476–588)

Each handler first runs the typed decode; a decode failure is caught and
logged, leaving the state unchanged.  `now` stands for `int(time.time())`. -/

/-- Successful-decode branch of `_process_chat_message` (lines 480–491). -/
def applyChatMessage (now : Nat) (st : CrawlerState) (m : ChatMessage) :
    CrawlerState :=
  { st with chat_messages := st.chat_messages ++
      [⟨now, toString m.user.id, m.user.nick_name, m.content⟩] }

/-- Successful-decode branch of `_process_gift_message` (lines 501–522):
upsert the per-name stat (seeding `{0, 0, set()}` when absent), coerce
`senders` back to a set if a save turned it into a list, then accumulate
`count`, `total_value` and the sender nickname. -/
def applyGiftMessage (st : CrawlerState) (m : GiftMessage) : CrawlerState :=
  let gift_name := m.gift.name
  let gift_count := m.repeat_count
  let gift_value := m.gift.diamond_count * gift_count
  let stat0 := (lookupGift st.gifts gift_name).getD ⟨0, 0, .pset []⟩
  let senders1 := ensureSet stat0.senders
  let stat1 : GiftStat :=
    { count := stat0.count + gift_count
      total_value := stat0.total_value + gift_value
      senders := collInsert m.user.nick_name senders1 }
  { st with gifts := storeGift st.gifts gift_name stat1 }

/-- Successful-decode branch of `_process_member_message` (lines 533–544).
The returned flag records whether the "entered" branch ran (the
`logger.info("… 进入直播间")` side effect at line 544). -/
def applyMemberMessage (st : CrawlerState) (m : MemberMessage) :
    CrawlerState × Bool :=
  let user_key := toString m.user.id
  if user_key ∈ st.memberCache then
    (st, false)
  else
    ({ st with
        members := collInsert m.user.nick_name (ensureSet st.members)
        memberCache := setInsert user_key st.memberCache }, true)

/-- Successful-decode branch of `_process_like_message` (lines 552–554). -/
def applyLikeMessage (st : CrawlerState) (m : LikeMessage) : CrawlerState :=
  { st with total_likes := st.total_likes + m.count }

/-- Successful-decode branch of `_process_follow_message` (lines 565–574). -/
def applyFollowMessage (now : Nat) (st : CrawlerState) (m : SocialMessage) :
    CrawlerState :=
  { st with follows := st.follows ++
      [⟨now, toString m.user.id, m.user.nick_name⟩] }

/-- Successful-decode branch of `_process_viewer_count` (lines 583–585):
overwrite `total_viewers` with the event's absolute value. -/
def applyViewerCount (st : CrawlerState) (m : RoomUserSeqMessage) :
    CrawlerState :=
  { st with total_viewers := m.total_user }

/-- `_process_message` (lines 455–474): switch on the method tag, run the
matching typed decoder, apply the mutation on success, leave the state
unchanged on a decode failure (logged and skipped) or an unknown tag. -/
def processMessage (now : Nat) (st : CrawlerState) (msg : SubMsg) :
    CrawlerState :=
  if msg.method = "WebcastChatMessage" then
    match parseChatMessage msg.payload with
    | some m => applyChatMessage now st m
    | none => st
  else if msg.method = "WebcastGiftMessage" then
    match parseGiftMessage msg.payload with
    | some m => applyGiftMessage st m
    | none => st
  else if msg.method = "WebcastMemberMessage" then
    match parseMemberMessage msg.payload with
    | some m => (applyMemberMessage st m).1
    | none => st
  else if msg.method = "WebcastLikeMessage" then
    match parseLikeMessage msg.payload with
    | some m => applyLikeMessage st m
    | none => st
  else if msg.method = "WebcastSocialMessage" then
    match parseSocialMessage msg.payload with
    | some m => applyFollowMessage now st m
    | none => st
  else if msg.method = "WebcastRoomUserSeqMessage" then
    match parseRoomUserSeqMessage msg.payload with
    | some m => applyViewerCount st m
    | none => st
  else
    st

/-- The dispatch loop over one batch's `messages_list` (lines 416–417),
sub-messages applied in wire order. -/
def processBatch (now : Nat) (st : CrawlerState) (msgs : List SubMsg) :
    CrawlerState :=
  msgs.foldl (processMessage now) st

/-- `True` exactly when `_process_message` leaves the state unchanged for
this sub-message because its typed decode fails or its method tag is
unknown (the dispatcher recognises six tags, lines 460–471). -/
def subMessageSkipped (msg : SubMsg) : Bool :=
  if msg.method = "WebcastChatMessage" then (parseChatMessage msg.payload).isNone
  else if msg.method = "WebcastGiftMessage" then (parseGiftMessage msg.payload).isNone
  else if msg.method = "WebcastMemberMessage" then (parseMemberMessage msg.payload).isNone
  else if msg.method = "WebcastLikeMessage" then (parseLikeMessage msg.payload).isNone
  else if msg.method = "WebcastSocialMessage" then (parseSocialMessage msg.payload).isNone
  else if msg.method = "WebcastRoomUserSeqMessage" then (parseRoomUserSeqMessage msg.payload).isNone
  else true

/-! ### Frame codec: `_on_message` (lines 394–421)

The outer envelope is `PushFrame {log_id, payload_type, payload}`; bytes are
modelled as `List Nat`.  The external library calls in the decode chain —
`PushFrame().parse`, `gzip.decompress`, `Response().parse` — are passed in
as explicit (possibly failing) functions; any failure is the exception
caught at line 419, which drops the inbound message. -/

/-- Outer wire envelope (`PushFrame`). -/
structure PushFrame where
  log_id : Nat
  payload_type : String
  payload : List Nat
  deriving DecidableEq, Repr

/-- Decompressed batch record (`Response`): ack flag, internal extension
string, ordered sub-messages. -/
structure BatchResponse where
  need_ack : Bool
  internal_ext : String
  messages_list : List SubMsg
  deriving DecidableEq, Repr

/-- `s.encode("utf-8")` as a byte list. -/
def utf8Encode (s : String) : List Nat :=
  s.toUTF8.toList.map (fun b => b.toNat)

/-- Observable actions of `_on_message`, in program order: a binary-frame
send (`ws.send`, line 413) or the dispatch of one sub-message
(`self._process_message(msg)`, line 417). -/
inductive WsAction where
  | send (frame : PushFrame)
  | dispatch (msg : SubMsg)
  deriving DecidableEq, Repr

/-- Whether an observable action is a frame send. -/
def WsAction.isSend : WsAction → Bool
  | .send _ => true
  | .dispatch _ => false

/-- `_on_message` (lines 394–421): parse the envelope, gunzip its payload,
parse the batch; if `need_ack`, build and send the ack envelope (same
`log_id`, `payload_type='ack'`, payload = `internal_ext` UTF-8 encoded)
before the dispatch loop runs; any decode failure drops the message.
Returns the state after dispatch and the ordered action trace;
`parseSubMessages` decodes the raw sub-message bytes to the granularity of
`RawPayload`. -/
def on_message (parsePushFrame : List Nat → Option PushFrame)
    (gzipDecompress : List Nat → Option (List Nat))
    (parseResponse : List Nat → Option BatchResponse)
    (now : Nat) (st : CrawlerState) (message : List Nat) :
    CrawlerState × List WsAction :=
  match parsePushFrame message with
  | none => (st, [])
  | some package =>
    match gzipDecompress package.payload with
    | none => (st, [])
    | some data =>
      match parseResponse data with
      | none => (st, [])
      | some response =>
        let acks : List WsAction :=
          if response.need_ack then
            [.send ⟨package.log_id, "ack", utf8Encode response.internal_ext⟩]
          else []
        (processBatch now st response.messages_list,
         acks ++ response.messages_list.map .dispatch)

/-! ### Snapshot writer: `_save_data` (lines 597–627)

`data_copy = self.data.copy()` is a **shallow** copy: rebinding
`data_copy["members"]` or adding `data_copy["stats"]` touches only the
copy, but the per-gift dictionaries are shared, so
`gift_data["senders"] = list(gift_data["senders"])` (line 607) mutates the
in-memory aggregate.  The model therefore returns both the serialized
snapshot and the post-save state. -/

/-- The `stats` block attached to the snapshot (lines 610–616). -/
structure SavedStats where
  total_chat_messages : Nat
  total_members : Nat
  total_follows : Nat
  total_gift_types : Nat
  save_time : String
  deriving DecidableEq, Repr

/-- The JSON object `_save_data` writes: the aggregate fields with sets
turned into lists, plus the `stats` block. -/
structure SavedData where
  live_id : String
  date : String
  session : Int
  user_id : String
  nickname : String
  total_viewers : Nat
  total_likes : Nat
  chat_messages : List ChatRecord
  gifts : List (String × GiftStat)
  members : List String
  follows : List FollowRecord
  stats : SavedStats
  deriving DecidableEq, Repr

/-- `_save_data` (lines 597–627).  `save_time` stands for
`datetime.now().isoformat()`.  The first component is the in-memory state
after the save: unchanged except that each gift's `senders` that was a set
has been converted in place to a list (the shared-inner-dict mutation at
line 607). -/
def saveData (st : CrawlerState) (save_time : String) :
    CrawlerState × SavedData :=
  let giftsAfter := st.gifts.map (fun p => (p.1,
    { p.2 with senders := collListify p.2.senders }))
  let membersList := st.members.elems
  let saved : SavedData :=
    { live_id := st.live_id
      date := st.date
      session := st.session
      user_id := st.user_id
      nickname := st.nickname
      total_viewers := st.total_viewers
      total_likes := st.total_likes
      chat_messages := st.chat_messages
      gifts := giftsAfter
      members := membersList
      follows := st.follows
      stats :=
        { total_chat_messages := st.chat_messages.length
          total_members := membersList.length
          total_follows := st.follows.length
          total_gift_types := st.gifts.length
          save_time := save_time } }
  ({ st with gifts := giftsAfter }, saved)

/-! ### Session ordinal: `_get_next_session_count` (lines 217–231) -/

/-- Python `basename.split("_")` at character level, e.g.
`"a_b_c" ↦ ["a","b","c"]`; adjacent separators yield empty fields, and a
string with no separator yields the one-element list, as in Python. -/
def splitUnderscore : List Char → List (List Char)
  | [] => [[]]
  | c :: rest =>
    if c = '_' then [] :: splitUnderscore rest
    else
      match splitUnderscore rest with
      | [] => [[c]]
      | h :: t => (c :: h) :: t

/-- Decimal-digit run to a natural number; `none` (Python `ValueError`)
when empty or holding a non-digit. -/
def parseDecimalNat (l : List Char) : Option Nat :=
  if l ≠ [] ∧ l.all Char.isDigit then
    some (l.foldl (fun acc c => acc * 10 + (c.toNat - '0'.toNat)) 0)
  else none

/-- Python `int(s)` on the shapes an underscore-free filename field can
take: an optional minus sign followed by decimal digits; anything else
raises `ValueError` (`none`). -/
def parsePyInt (l : List Char) : Option Int :=
  match l with
  | '-' :: rest => (parseDecimalNat rest).map (fun n => -(n : Int))
  | _ => (parseDecimalNat l).map (fun n => (n : Int))

/-- The ordinal field of one persisted-file basename:
`int(basename.split("_")[1])`, `none` when indexing or `int()` raises. -/
def ordinalOfFile (basename : String) : Option Int :=
  match (splitUnderscore basename.data).get? 1 with
  | none => none
  | some field => parsePyInt field

/-- `_get_next_session_count` applied to the basenames the glob
`{live_id}_*_*.json` returned: fold `max` over the parseable ordinal
fields starting from `0`, skip unparseable files, and add 1. -/
def getNextSessionCount (basenames : List String) : Int :=
  (basenames.foldl (fun acc file =>
    match ordinalOfFile file with
    | some n => max acc n
    | none => acc) 0) + 1

/-! ### Room resolution: the `room_id` property (lines 253–280)

The HTTP GET is an explicit `Option String` input (`none` models the
request raising, caught at line 269).  On an HTTP failure the property logs
and falls off the end, returning Python `None` and touching neither
`__room_id` nor `is_live`; only a successful fetch whose page lacks the
`roomId` pattern takes the fallback branch (lines 274–276). -/

/-- The cached resolver state: `self.__room_id` and `self.is_live`. -/
structure ResolverState where
  cached_room_id : Option String
  is_live : Bool
  deriving DecidableEq, Repr

/-- Python truthiness of `self.__room_id` (line 259): `None` and the empty
string are falsy. -/
def pyTruthy : Option String → Bool
  | none => false
  | some s => !s.isEmpty

/-- `re.search(r'roomId\\":\\"(\d+)\\"', text)` restricted to what the
property uses: the first digit run in the page that is wrapped as
`roomId\":\"<digits>\"`, scanning character positions left to right. -/
def findRoomIdIn : List Char → Option String
  | [] => none
  | c :: rest =>
    let fullPattern := 'r' :: 'o' :: 'o' :: 'm' :: 'I' :: 'd' :: '\\' ::
      '"' :: ':' :: '\\' :: '"' :: []
    let here : Option String :=
      if (c :: rest).take 11 = fullPattern then
        let afterKey := (c :: rest).drop 11
        let digits := afterKey.takeWhile Char.isDigit
        let afterDigits := afterKey.drop digits.length
        if digits ≠ [] ∧ afterDigits.take 2 = ['\\', '"'] then
          some (String.mk digits)
        else none
      else none
    match here with
    | some r => some r
    | none => findRoomIdIn rest

/-- `re.search` over the response text. -/
def findRoomId (text : String) : Option String :=
  findRoomIdIn text.data

/-- The `room_id` property (lines 253–280): return the cached id if truthy;
otherwise fetch the room page — on a request failure log and return `None`
leaving the state alone; on success extract `roomId`, falling back to
`live_id` with `is_live = False` when the pattern is absent. -/
def roomIdProperty (live_id : String) (fetchResult : Option String)
    (st : ResolverState) : Option String × ResolverState :=
  if pyTruthy st.cached_room_id then
    (st.cached_room_id, st)
  else
    match fetchResult with
    | none => (none, st)
    | some text =>
      match findRoomId text with
      | none =>
        (some live_id, { st with cached_room_id := some live_id, is_live := false })
      | some r =>
        (some r, { st with cached_room_id := some r })

/-! ### Initial connection loop: `_connectWebSocket` (lines 320–375)

One loop iteration is one connection attempt; its outcome is either a
signature failure (`generateSignature` returned a falsy value, line 331),
an exception from the attempt (network error, caught at line 368), or a
normal return of `run_forever` (the `break` at line 366).  Outcomes are an
explicit stream indexed by attempt number. -/

/-- Outcome of one connection attempt. -/
inductive AttemptOutcome where
  | sigFail
  | netError
  | ok
  deriving DecidableEq, Repr

/-- How `_connectWebSocket` terminated. -/
inductive ConnectResult where
  | sigAborted
  | finished
  | maxRetriesReached
  deriving DecidableEq, Repr

/-- The `while self.is_running and retry_count < max_retries` loop with
`max_retries = 3`, started at `retry_count` with `fuel = 3 - retry_count`
iterations remaining (`is_running` stays true in this model: nothing in the
loop clears it).  A signature failure executes `return`, leaving the whole
routine; a normal `run_forever` return executes `break`; an exception
increments `retry_count` and retries while slots remain.  Returns the
number of attempts performed together with the way the loop ended. -/
def connectLoop (outcomes : Nat → AttemptOutcome) :
    Nat → Nat → Nat × ConnectResult
  | 0, _ => (0, .maxRetriesReached)
  | fuel + 1, attemptIdx =>
    match outcomes attemptIdx with
    | .sigFail => (1, .sigAborted)
    | .ok => (1, .finished)
    | .netError =>
      let rest := connectLoop outcomes fuel (attemptIdx + 1)
      (rest.1 + 1, rest.2)

/-- `_connectWebSocket` entered with `retry_count = 0`, `max_retries = 3`. -/
def connectWebSocket (outcomes : Nat → AttemptOutcome) : Nat × ConnectResult :=
  connectLoop outcomes 3 0

/-- A one-gift aggregate used to exhibit the snapshot writer's in-place
mutation: the "rose" stat holds one sender, stored as a set. -/
def roseState : CrawlerState :=
  { initState "X" "2024-01-01" 1 with
      gifts := [("rose", ⟨2, 10, .pset ["alice"]⟩)] }

/-! ## Helper lemmas -/

theorem mem_setInsert {y x : String} {s : List String} :
    y ∈ setInsert x s ↔ y = x ∨ y ∈ s := by
  unfold setInsert
  split
  · rename_i hx
    constructor
    · exact Or.inr
    · rintro (rfl | h) <;> [exact hx; exact h]
  · simp [or_comm]

theorem setInsert_of_mem {x : String} {s : List String} (h : x ∈ s) :
    setInsert x s = s := by
  unfold setInsert; simp [h]

theorem setInsert_of_not_mem {x : String} {s : List String} (h : x ∉ s) :
    setInsert x s = s ++ [x] := by
  unfold setInsert; simp [h]

theorem mem_setInsert_self (x : String) (s : List String) :
    x ∈ setInsert x s := mem_setInsert.mpr (Or.inl rfl)

theorem mem_setInsert_of_mem {y : String} (x : String) {s : List String}
    (h : y ∈ s) : y ∈ setInsert x s := mem_setInsert.mpr (Or.inr h)

theorem setInsert_length_le (x : String) (s : List String) :
    (setInsert x s).length ≤ s.length + 1 := by
  unfold setInsert
  split
  · exact Nat.le_succ _
  · simp

theorem setInsert_length_of_not_mem {x : String} {s : List String}
    (h : x ∉ s) : (setInsert x s).length = s.length + 1 := by
  rw [setInsert_of_not_mem h]; simp

theorem foldl_setInsert_mem {y : String} :
    ∀ (l acc : List String),
      y ∈ l.foldl (fun a x => setInsert x a) acc ↔ y ∈ acc ∨ y ∈ l := by
  intro l
  induction l with
  | nil => simp
  | cons x t ih =>
    intro acc
    simp only [List.foldl_cons, ih, mem_setInsert, List.mem_cons]
    tauto

theorem mem_pySetOfList {y : String} {l : List String} :
    y ∈ pySetOfList l ↔ y ∈ l := by
  unfold pySetOfList
  rw [foldl_setInsert_mem]
  simp

theorem foldl_setInsert_length_le :
    ∀ (l acc : List String),
      (l.foldl (fun a x => setInsert x a) acc).length ≤ acc.length + l.length := by
  intro l
  induction l with
  | nil => simp
  | cons x t ih =>
    intro acc
    simp only [List.foldl_cons, List.length_cons]
    calc (t.foldl (fun a x => setInsert x a) (setInsert x acc)).length
        ≤ (setInsert x acc).length + t.length := ih _
      _ ≤ acc.length + 1 + t.length :=
          Nat.add_le_add_right (setInsert_length_le _ _) _
      _ = acc.length + (t.length + 1) := by omega

theorem pySetOfList_length_le (l : List String) :
    (pySetOfList l).length ≤ l.length := by
  have := foldl_setInsert_length_le l []
  simpa [pySetOfList] using this

theorem ensureSet_elems_mem {y : String} {c : StrColl} :
    y ∈ (ensureSet c).elems ↔ y ∈ c.elems := by
  cases c with
  | pset l => rfl
  | plist l => simpa [ensureSet, StrColl.elems] using mem_pySetOfList

theorem ensureSet_length_le (c : StrColl) :
    (ensureSet c).elems.length ≤ c.elems.length := by
  cases c with
  | pset l => exact le_rfl
  | plist l => simpa [ensureSet, StrColl.elems] using pySetOfList_length_le l

theorem ensureSet_is_pset (c : StrColl) : ∃ l, ensureSet c = .pset l := by
  cases c with
  | pset l => exact ⟨l, rfl⟩
  | plist l => exact ⟨pySetOfList l, rfl⟩

theorem collMem_collInsert_ensureSet {x y : String} {c : StrColl} :
    collMem x (collInsert y (ensureSet c)) ↔ x = y ∨ collMem x c := by
  obtain ⟨l, hl⟩ := ensureSet_is_pset c
  have hmem : ∀ z, z ∈ l ↔ z ∈ c.elems := by
    intro z
    have := @ensureSet_elems_mem z c
    rw [hl] at this
    exact this
  rw [hl]
  simp only [collInsert, collMem, StrColl.elems, mem_setInsert, hmem]

theorem lookupGift_storeGift_self (gifts : List (String × GiftStat))
    (name : String) (stat : GiftStat) :
    lookupGift (storeGift gifts name stat) name = some stat := by
  induction gifts with
  | nil => simp [storeGift, lookupGift, List.find?]
  | cons p rest ih =>
    by_cases h : p.1 = name
    · simp [storeGift, h, lookupGift, List.find?]
    · have hb : (p.1 == name) = false := beq_eq_false_iff_ne.mpr h
      simp only [storeGift, if_neg h]
      simpa [lookupGift, List.find?_cons, hb] using ih

theorem collListify_elems (c : StrColl) : (collListify c).elems = c.elems := by
  cases c <;> rfl

theorem giftStatOf_applyGiftMessage (s : CrawlerState) (e : GiftMessage) :
    giftStatOf (applyGiftMessage s e) e.gift.name =
      { count := (giftStatOf s e.gift.name).count + e.repeat_count
        total_value := (giftStatOf s e.gift.name).total_value
            + e.gift.diamond_count * e.repeat_count
        senders := collInsert e.user.nick_name
            (ensureSet (giftStatOf s e.gift.name).senders) } := by
  simp only [applyGiftMessage, giftStatOf]
  rw [lookupGift_storeGift_self]
  rfl

theorem gift_fold (name : String) :
    ∀ (es : List GiftMessage) (s : CrawlerState),
      (∀ e ∈ es, e.gift.name = name) →
      (giftStatOf (es.foldl applyGiftMessage s) name).count
          = (giftStatOf s name).count + (es.map (·.repeat_count)).sum ∧
      (giftStatOf (es.foldl applyGiftMessage s) name).total_value
          = (giftStatOf s name).total_value
              + (es.map (fun e => e.gift.diamond_count * e.repeat_count)).sum ∧
      ∀ x, collMem x (giftStatOf (es.foldl applyGiftMessage s) name).senders
          ↔ collMem x (giftStatOf s name).senders
              ∨ x ∈ es.map (fun e => e.user.nick_name) := by
  intro es
  induction es with
  | nil =>
    intro s _
    simp
  | cons e t ih =>
    intro s hall
    have hname : e.gift.name = name := hall e (by simp)
    have hrest : ∀ e' ∈ t, e'.gift.name = name := fun e' h => hall e' (by simp [h])
    obtain ⟨ihc, ihv, ihm⟩ := ih (applyGiftMessage s e) hrest
    have hstat := giftStatOf_applyGiftMessage s e
    rw [hname] at hstat
    refine ⟨?_, ?_, ?_⟩
    · rw [List.foldl_cons, ihc, hstat]
      simp [Nat.add_assoc]
    · rw [List.foldl_cons, ihv, hstat]
      simp [Nat.add_assoc]
    · intro x
      rw [List.foldl_cons, ihm x, hstat]
      simp only [collMem_collInsert_ensureSet, List.map_cons, List.mem_cons]
      tauto

/-- C1: for any sequence of Gift events all carrying one `gift_name`,
starting from a state with no entry for that name, the final `GiftStat`
has `count` = Σ `repeat_count`, `total_value` = Σ `unit_value × repeat_count`,
and `senders` containing exactly the events' sender nicknames, accumulating
on every event regardless of duplicate senders. -/
theorem c1_gift_accumulation (s : CrawlerState) (name : String)
    (es : List GiftMessage)
    (hname : ∀ e ∈ es, e.gift.name = name)
    (hfresh : lookupGift s.gifts name = none) :
    (giftStatOf (es.foldl applyGiftMessage s) name).count
        = (es.map (·.repeat_count)).sum ∧
    (giftStatOf (es.foldl applyGiftMessage s) name).total_value
        = (es.map (fun e => e.gift.diamond_count * e.repeat_count)).sum ∧
    ∀ x, collMem x (giftStatOf (es.foldl applyGiftMessage s) name).senders
        ↔ x ∈ es.map (fun e => e.user.nick_name) := by
  have h0 : giftStatOf s name = ⟨0, 0, .pset []⟩ := by
    simp [giftStatOf, hfresh]
  obtain ⟨hc, hv, hm⟩ := gift_fold name es s hname
  rw [h0] at hc hv hm
  refine ⟨by simpa using hc, by simpa using hv, fun x => ?_⟩
  have := hm x
  simpa [collMem, StrColl.elems] using this

/-- Concrete instance of C1: two "rose" gift events (2×5 and 3×5 diamonds,
senders "alice" and "bob") on a fresh aggregate give count 5,
total_value 25, senders = {alice, bob}. -/
theorem c1_gift_accumulation_witness :
    (∀ e ∈ [GiftMessage.mk ⟨1, "alice"⟩ ⟨"rose", 5⟩ 2,
            GiftMessage.mk ⟨2, "bob"⟩ ⟨"rose", 5⟩ 3],
        e.gift.name = "rose") ∧
    lookupGift (initState "X" "2024-01-01" 1).gifts "rose" = none ∧
    ((giftStatOf ([GiftMessage.mk ⟨1, "alice"⟩ ⟨"rose", 5⟩ 2,
          GiftMessage.mk ⟨2, "bob"⟩ ⟨"rose", 5⟩ 3].foldl applyGiftMessage
          (initState "X" "2024-01-01" 1)) "rose").count
        = ([GiftMessage.mk ⟨1, "alice"⟩ ⟨"rose", 5⟩ 2,
            GiftMessage.mk ⟨2, "bob"⟩ ⟨"rose", 5⟩ 3].map
              (·.repeat_count)).sum ∧
      (giftStatOf ([GiftMessage.mk ⟨1, "alice"⟩ ⟨"rose", 5⟩ 2,
          GiftMessage.mk ⟨2, "bob"⟩ ⟨"rose", 5⟩ 3].foldl applyGiftMessage
          (initState "X" "2024-01-01" 1)) "rose").total_value
        = ([GiftMessage.mk ⟨1, "alice"⟩ ⟨"rose", 5⟩ 2,
            GiftMessage.mk ⟨2, "bob"⟩ ⟨"rose", 5⟩ 3].map
              (fun e => e.gift.diamond_count * e.repeat_count)).sum ∧
      ∀ x, collMem x (giftStatOf ([GiftMessage.mk ⟨1, "alice"⟩ ⟨"rose", 5⟩ 2,
            GiftMessage.mk ⟨2, "bob"⟩ ⟨"rose", 5⟩ 3].foldl applyGiftMessage
            (initState "X" "2024-01-01" 1)) "rose").senders
          ↔ x ∈ [GiftMessage.mk ⟨1, "alice"⟩ ⟨"rose", 5⟩ 2,
                 GiftMessage.mk ⟨2, "bob"⟩ ⟨"rose", 5⟩ 3].map
                   (fun e => e.user.nick_name)) :=
  ⟨by decide, by decide,
   c1_gift_accumulation (initState "X" "2024-01-01" 1) "rose"
     [GiftMessage.mk ⟨1, "alice"⟩ ⟨"rose", 5⟩ 2,
      GiftMessage.mk ⟨2, "bob"⟩ ⟨"rose", 5⟩ 3]
     (by decide) (by decide)⟩

theorem viewer_fold_cons :
    ∀ (es : List RoomUserSeqMessage) (e : RoomUserSeqMessage)
      (s : CrawlerState),
      ((e :: es).foldl applyViewerCount s).total_viewers
        = ((e :: es).getLast (List.cons_ne_nil e es)).total_user := by
  intro es
  induction es with
  | nil => intro e s; simp [applyViewerCount]
  | cons e2 t ih =>
    intro e s
    have h := ih e2 (applyViewerCount s e)
    rw [List.foldl_cons]
    rw [List.getLast_cons (List.cons_ne_nil e2 t)]
    exact h

/-- C8: after any nonempty sequence of ViewerCount events, `total_viewers`
equals the absolute value carried by the last applied event (last-write-wins
overwrite), never an accumulation. -/
theorem c8_viewer_count_last_write_wins (s : CrawlerState)
    (es : List RoomUserSeqMessage) (h : es ≠ []) :
    (es.foldl applyViewerCount s).total_viewers = (es.getLast h).total_user := by
  cases es with
  | nil => exact absurd rfl h
  | cons e t => exact viewer_fold_cons t e s

/-- Concrete instance of C8: viewer-count events 100 then 7 leave
`total_viewers = 7`, not 107. -/
theorem c8_viewer_count_last_write_wins_witness :
    ([RoomUserSeqMessage.mk 100, RoomUserSeqMessage.mk 7] ≠
        ([] : List RoomUserSeqMessage)) ∧
    ([RoomUserSeqMessage.mk 100, RoomUserSeqMessage.mk 7].foldl
        applyViewerCount (initState "X" "2024-01-01" 1)).total_viewers
      = ([RoomUserSeqMessage.mk 100, RoomUserSeqMessage.mk 7].getLast
          (by decide)).total_user :=
  ⟨by decide,
   c8_viewer_count_last_write_wins (initState "X" "2024-01-01" 1)
     [RoomUserSeqMessage.mk 100, RoomUserSeqMessage.mk 7] (by decide)⟩

theorem filter_isSend_map_dispatch (l : List SubMsg) :
    (l.map WsAction.dispatch).filter WsAction.isSend = [] := by
  induction l with
  | nil => rfl
  | cons a t ih => simp [WsAction.isSend, ih]

/-- C2: for every inbound envelope whose payload decompresses and parses to
a batch with `need_ack`, the handler's action trace is exactly one sent
reply envelope — same `log_id`, payload_type `"ack"`, payload the batch's
`internal_ext` UTF-8 encoded — followed by the dispatch of the batch's
sub-messages in order; the resulting state is the batch dispatch alone. -/
theorem c2_ack_before_dispatch
    (parsePushFrame : List Nat → Option PushFrame)
    (gzipDecompress : List Nat → Option (List Nat))
    (parseResponse : List Nat → Option BatchResponse)
    (now : Nat) (st : CrawlerState) (message : List Nat)
    (pkg : PushFrame) (data : List Nat) (resp : BatchResponse)
    (h1 : parsePushFrame message = some pkg)
    (h2 : gzipDecompress pkg.payload = some data)
    (h3 : parseResponse data = some resp)
    (h4 : resp.need_ack = true) :
    (on_message parsePushFrame gzipDecompress parseResponse now st message).2
      = WsAction.send ⟨pkg.log_id, "ack", utf8Encode resp.internal_ext⟩
          :: resp.messages_list.map WsAction.dispatch ∧
    ((on_message parsePushFrame gzipDecompress parseResponse now st
        message).2.filter WsAction.isSend).length = 1 ∧
    (on_message parsePushFrame gzipDecompress parseResponse now st message).1
      = processBatch now st resp.messages_list := by
  have hmain :
      (on_message parsePushFrame gzipDecompress parseResponse now st
          message).2
        = WsAction.send ⟨pkg.log_id, "ack", utf8Encode resp.internal_ext⟩
            :: resp.messages_list.map WsAction.dispatch := by
    simp [on_message, h1, h2, h3, h4]
  refine ⟨hmain, ?_, ?_⟩
  · rw [hmain]
    simp [WsAction.isSend, filter_isSend_map_dispatch]
  · simp [on_message, h1, h2, h3, h4]

/-- Concrete instance of C2: decoders that accept the inbound bytes as
envelope `{log_id 7}` wrapping an ack-requiring batch with
`internal_ext = "ext"` and one Chat sub-message produce the ack frame
followed by that single dispatch. -/
theorem c2_ack_before_dispatch_witness :
    ((fun _ : List Nat => some (PushFrame.mk 7 "msg" [5])) [0]
        = some (PushFrame.mk 7 "msg" [5])) ∧
    ((fun _ : List Nat => some ([9] : List Nat)) (PushFrame.mk 7 "msg" [5]).payload
        = some ([9] : List Nat)) ∧
    ((fun _ : List Nat => some (BatchResponse.mk true "ext"
          [⟨"WebcastChatMessage", .chat ⟨⟨1, "n"⟩, "hi"⟩⟩])) [9]
        = some (BatchResponse.mk true "ext"
          [⟨"WebcastChatMessage", .chat ⟨⟨1, "n"⟩, "hi"⟩⟩])) ∧
    (BatchResponse.mk true "ext"
        [⟨"WebcastChatMessage", .chat ⟨⟨1, "n"⟩, "hi"⟩⟩]).need_ack = true ∧
    ((on_message (fun _ => some (PushFrame.mk 7 "msg" [5]))
        (fun _ => some [9])
        (fun _ => some (BatchResponse.mk true "ext"
          [⟨"WebcastChatMessage", .chat ⟨⟨1, "n"⟩, "hi"⟩⟩]))
        0 (initState "X" "2024-01-01" 1) [0]).2
      = WsAction.send ⟨(PushFrame.mk 7 "msg" [5]).log_id, "ack",
            utf8Encode (BatchResponse.mk true "ext"
              [⟨"WebcastChatMessage", .chat ⟨⟨1, "n"⟩, "hi"⟩⟩]).internal_ext⟩
          :: (BatchResponse.mk true "ext"
              [⟨"WebcastChatMessage", .chat ⟨⟨1, "n"⟩, "hi"⟩⟩]).messages_list.map
                WsAction.dispatch ∧
      ((on_message (fun _ => some (PushFrame.mk 7 "msg" [5]))
          (fun _ => some [9])
          (fun _ => some (BatchResponse.mk true "ext"
            [⟨"WebcastChatMessage", .chat ⟨⟨1, "n"⟩, "hi"⟩⟩]))
          0 (initState "X" "2024-01-01" 1) [0]).2.filter
            WsAction.isSend).length = 1 ∧
      (on_message (fun _ => some (PushFrame.mk 7 "msg" [5]))
          (fun _ => some [9])
          (fun _ => some (BatchResponse.mk true "ext"
            [⟨"WebcastChatMessage", .chat ⟨⟨1, "n"⟩, "hi"⟩⟩]))
          0 (initState "X" "2024-01-01" 1) [0]).1
        = processBatch 0 (initState "X" "2024-01-01" 1)
            (BatchResponse.mk true "ext"
              [⟨"WebcastChatMessage", .chat ⟨⟨1, "n"⟩, "hi"⟩⟩]).messages_list) :=
  ⟨rfl, rfl, rfl, rfl,
   c2_ack_before_dispatch (fun _ => some (PushFrame.mk 7 "msg" [5]))
     (fun _ => some [9])
     (fun _ => some (BatchResponse.mk true "ext"
       [⟨"WebcastChatMessage", .chat ⟨⟨1, "n"⟩, "hi"⟩⟩]))
     0 (initState "X" "2024-01-01" 1) [0]
     (PushFrame.mk 7 "msg" [5]) [9]
     (BatchResponse.mk true "ext"
       [⟨"WebcastChatMessage", .chat ⟨⟨1, "n"⟩, "hi"⟩⟩])
     rfl rfl rfl rfl⟩

theorem applyMemberMessage_of_mem {s : CrawlerState} {m : MemberMessage}
    (h : toString m.user.id ∈ s.memberCache) :
    applyMemberMessage s m = (s, false) := by
  simp [applyMemberMessage, h]

theorem applyMemberMessage_of_not_mem {s : CrawlerState} {m : MemberMessage}
    (h : toString m.user.id ∉ s.memberCache) :
    applyMemberMessage s m =
      ({ s with
          members := collInsert m.user.nick_name (ensureSet s.members)
          memberCache := setInsert (toString m.user.id) s.memberCache },
        true) := by
  simp [applyMemberMessage, h]

theorem processMessage_shape (now : Nat) (st : CrawlerState) (msg : SubMsg) :
    processMessage now st msg = st ∨
    (∃ m, processMessage now st msg = applyChatMessage now st m) ∨
    (∃ m, processMessage now st msg = applyGiftMessage st m) ∨
    (∃ m, processMessage now st msg = (applyMemberMessage st m).1) ∨
    (∃ m, processMessage now st msg = applyLikeMessage st m) ∨
    (∃ m, processMessage now st msg = applyFollowMessage now st m) ∨
    (∃ m, processMessage now st msg = applyViewerCount st m) := by
  unfold processMessage
  repeat' split
  all_goals
    first
      | exact Or.inl rfl
      | exact Or.inr (Or.inl ⟨_, rfl⟩)
      | exact Or.inr (Or.inr (Or.inl ⟨_, rfl⟩))
      | exact Or.inr (Or.inr (Or.inr (Or.inl ⟨_, rfl⟩)))
      | exact Or.inr (Or.inr (Or.inr (Or.inr (Or.inl ⟨_, rfl⟩))))
      | exact Or.inr (Or.inr (Or.inr (Or.inr (Or.inr (Or.inl ⟨_, rfl⟩)))))
      | exact Or.inr (Or.inr (Or.inr (Or.inr (Or.inr (Or.inr ⟨_, rfl⟩)))))

theorem collInsert_ensureSet_length_le (x : String) (c : StrColl) :
    (collInsert x (ensureSet c)).elems.length ≤ c.elems.length + 1 := by
  obtain ⟨l, hl⟩ := ensureSet_is_pset c
  have hle : l.length ≤ c.elems.length := by
    have h := ensureSet_length_le c
    rw [hl] at h
    exact h
  rw [hl]
  calc (collInsert x (.pset l)).elems.length = (setInsert x l).length := rfl
    _ ≤ l.length + 1 := setInsert_length_le _ _
    _ ≤ c.elems.length + 1 := Nat.add_le_add_right hle _

theorem applyMemberMessage_memberCache_mono (st : CrawlerState)
    (m : MemberMessage) {x : String} (h : x ∈ st.memberCache) :
    x ∈ ((applyMemberMessage st m).1).memberCache := by
  by_cases hk : toString m.user.id ∈ st.memberCache
  · rw [applyMemberMessage_of_mem hk]; exact h
  · rw [applyMemberMessage_of_not_mem hk]
    exact mem_setInsert_of_mem _ h

theorem processMessage_memberCache_mono (now : Nat) (st : CrawlerState)
    (msg : SubMsg) {x : String} (h : x ∈ st.memberCache) :
    x ∈ (processMessage now st msg).memberCache := by
  rcases processMessage_shape now st msg with
    heq | ⟨m, heq⟩ | ⟨m, heq⟩ | ⟨m, heq⟩ | ⟨m, heq⟩ | ⟨m, heq⟩ | ⟨m, heq⟩ <;>
    rw [heq]
  · exact h
  · exact h
  · exact h
  · exact applyMemberMessage_memberCache_mono st m h
  · exact h
  · exact h
  · exact h

theorem processBatch_memberCache_mono (now : Nat) :
    ∀ (msgs : List SubMsg) (st : CrawlerState) {x : String},
      x ∈ st.memberCache → x ∈ (processBatch now st msgs).memberCache := by
  intro msgs
  induction msgs with
  | nil => intro st x h; exact h
  | cons a t ih =>
    intro st x h
    exact ih _ (processMessage_memberCache_mono now st a h)

theorem processMessage_members_le_cache (now : Nat) (st : CrawlerState)
    (msg : SubMsg)
    (h : st.members.elems.length ≤ st.memberCache.length) :
    (processMessage now st msg).members.elems.length
      ≤ (processMessage now st msg).memberCache.length := by
  rcases processMessage_shape now st msg with
    heq | ⟨m, heq⟩ | ⟨m, heq⟩ | ⟨m, heq⟩ | ⟨m, heq⟩ | ⟨m, heq⟩ | ⟨m, heq⟩ <;>
    rw [heq]
  · exact h
  · exact h
  · exact h
  · by_cases hk : toString m.user.id ∈ st.memberCache
    · rw [applyMemberMessage_of_mem hk]; exact h
    · rw [applyMemberMessage_of_not_mem hk]
      have h1 := collInsert_ensureSet_length_le m.user.nick_name st.members
      have h2 := setInsert_length_of_not_mem hk
      simp only []
      rw [h2]
      omega
  · exact h
  · exact h
  · exact h

theorem processBatch_members_le_cache (now : Nat) :
    ∀ (msgs : List SubMsg) (st : CrawlerState),
      st.members.elems.length ≤ st.memberCache.length →
      (processBatch now st msgs).members.elems.length
        ≤ (processBatch now st msgs).memberCache.length := by
  intro msgs
  induction msgs with
  | nil => intro st h; exact h
  | cons a t ih =>
    intro st h
    exact ih _ (processMessage_members_le_cache now st a h)

/-- C3: from a state whose dedup set does not yet hold the user's key
(`str(user.id)`), the first Member event enters (side effect fires, the
nickname joins the members set as exactly one new entry), and a second
Member event with the same user key — after any interleaved batch of other
events — is a complete no-op: no state change, no "entered" side effect.
The dedup set is only ever grown, never expired, so this holds for the rest
of the session. -/
theorem c3_member_dedup_idempotent (s : CrawlerState)
    (e1 e2 : MemberMessage) (mid : List SubMsg) (now : Nat)
    (m : List String)
    (hid : e2.user.id = e1.user.id)
    (hm : s.members = .pset m)
    (hnick : e1.user.nick_name ∉ m)
    (hfresh : toString e1.user.id ∉ s.memberCache) :
    (applyMemberMessage s e1).2 = true ∧
    (applyMemberMessage s e1).1.members
      = .pset (m ++ [e1.user.nick_name]) ∧
    (applyMemberMessage s e1).1.members.elems.length = m.length + 1 ∧
    (applyMemberMessage
        (processBatch now (applyMemberMessage s e1).1 mid) e2).2 = false ∧
    (applyMemberMessage
        (processBatch now (applyMemberMessage s e1).1 mid) e2).1
      = processBatch now (applyMemberMessage s e1).1 mid := by
  have hfirst := applyMemberMessage_of_not_mem hfresh
  have hmembers : (applyMemberMessage s e1).1.members
      = .pset (m ++ [e1.user.nick_name]) := by
    rw [hfirst]
    simp only [hm, ensureSet, collInsert]
    rw [setInsert_of_not_mem hnick]
  have hkey : toString e2.user.id ∈
      (processBatch now (applyMemberMessage s e1).1 mid).memberCache := by
    apply processBatch_memberCache_mono
    rw [hfirst, hid]
    exact mem_setInsert_self _ _
  have hsecond := applyMemberMessage_of_mem hkey
  refine ⟨by rw [hfirst], hmembers, ?_, by rw [hsecond], by rw [hsecond]⟩
  rw [hmembers]
  simp [StrColl.elems]

/-- Concrete instance of C3: user 5 ("carol") enters once; after a Like
event in between, a replayed Member event for user 5 changes nothing. -/
theorem c3_member_dedup_idempotent_witness :
    ((MemberMessage.mk ⟨5, "carol"⟩).user.id
        = (MemberMessage.mk ⟨5, "carol"⟩).user.id) ∧
    (initState "X" "2024-01-01" 1).members = .pset [] ∧
    ((MemberMessage.mk ⟨5, "carol"⟩).user.nick_name ∉ ([] : List String)) ∧
    (toString (MemberMessage.mk ⟨5, "carol"⟩).user.id ∉
        (initState "X" "2024-01-01" 1).memberCache) ∧
    ((applyMemberMessage (initState "X" "2024-01-01" 1)
        (MemberMessage.mk ⟨5, "carol"⟩)).2 = true ∧
      (applyMemberMessage (initState "X" "2024-01-01" 1)
          (MemberMessage.mk ⟨5, "carol"⟩)).1.members
        = .pset ([] ++ [(MemberMessage.mk ⟨5, "carol"⟩).user.nick_name]) ∧
      (applyMemberMessage (initState "X" "2024-01-01" 1)
          (MemberMessage.mk ⟨5, "carol"⟩)).1.members.elems.length
        = List.length ([] : List String) + 1 ∧
      (applyMemberMessage
          (processBatch 0 (applyMemberMessage (initState "X" "2024-01-01" 1)
              (MemberMessage.mk ⟨5, "carol"⟩)).1
            [⟨"WebcastLikeMessage", .like ⟨3⟩⟩])
          (MemberMessage.mk ⟨5, "carol"⟩)).2 = false ∧
      (applyMemberMessage
          (processBatch 0 (applyMemberMessage (initState "X" "2024-01-01" 1)
              (MemberMessage.mk ⟨5, "carol"⟩)).1
            [⟨"WebcastLikeMessage", .like ⟨3⟩⟩])
          (MemberMessage.mk ⟨5, "carol"⟩)).1
        = processBatch 0 (applyMemberMessage (initState "X" "2024-01-01" 1)
            (MemberMessage.mk ⟨5, "carol"⟩)).1
            [⟨"WebcastLikeMessage", .like ⟨3⟩⟩]) :=
  ⟨rfl, rfl, by decide, by decide,
   c3_member_dedup_idempotent (initState "X" "2024-01-01" 1)
     (MemberMessage.mk ⟨5, "carol"⟩) (MemberMessage.mk ⟨5, "carol"⟩)
     [⟨"WebcastLikeMessage", .like ⟨3⟩⟩] 0 []
     rfl rfl (by decide) (by decide)⟩

/-- C10: member dedup is keyed by `str(user_id)` while the members set
stores nicknames.  From the fresh session state, after any batch the
members set is never larger than the dedup set; and two Member events with
distinct user keys but one nickname put both keys into the dedup set while
the members set gains just the single nickname (so `total_members` can
undercount distinct entered users). -/
theorem c10_members_bounded_by_dedup (now : Nat)
    (live_id date : String) (sess : Int) (msgs : List SubMsg)
    (s : CrawlerState) (m : List String) (e1 e2 : MemberMessage)
    (hkeys : toString e1.user.id ≠ toString e2.user.id)
    (hnicks : e2.user.nick_name = e1.user.nick_name)
    (hm : s.members = .pset m)
    (h1 : toString e1.user.id ∉ s.memberCache)
    (h2 : toString e2.user.id ∉ s.memberCache) :
    (processBatch now (initState live_id date sess) msgs).members.elems.length
      ≤ (processBatch now (initState live_id date sess)
          msgs).memberCache.length ∧
    toString e1.user.id ∈
      ((applyMemberMessage (applyMemberMessage s e1).1 e2).1).memberCache ∧
    toString e2.user.id ∈
      ((applyMemberMessage (applyMemberMessage s e1).1 e2).1).memberCache ∧
    ((applyMemberMessage (applyMemberMessage s e1).1 e2).1).memberCache.length
      = s.memberCache.length + 2 ∧
    ((applyMemberMessage (applyMemberMessage s e1).1 e2).1).members
      = .pset (setInsert e1.user.nick_name m) := by
  have hinv : (processBatch now (initState live_id date sess)
      msgs).members.elems.length
      ≤ (processBatch now (initState live_id date sess)
          msgs).memberCache.length := by
    apply processBatch_members_le_cache
    simp [initState, StrColl.elems]
  have hfirst := applyMemberMessage_of_not_mem h1
  have h2' : toString e2.user.id ∉ ((applyMemberMessage s e1).1).memberCache := by
    rw [hfirst]
    intro hmem
    rcases mem_setInsert.mp hmem with h | h
    · exact hkeys h.symm
    · exact h2 h
  have hsecond := applyMemberMessage_of_not_mem h2'
  refine ⟨hinv, ?_, ?_, ?_, ?_⟩
  · rw [hsecond, hfirst]
    exact mem_setInsert_of_mem _ (mem_setInsert_self _ _)
  · rw [hsecond, hfirst]
    exact mem_setInsert_self _ _
  · rw [hsecond, hfirst]
    simp only []
    have h2'' : toString e2.user.id ∉
        setInsert (toString e1.user.id) s.memberCache := by
      rw [hfirst] at h2'
      exact h2'
    rw [setInsert_length_of_not_mem h2'', setInsert_length_of_not_mem h1]
  · rw [hsecond, hfirst]
    simp only [hm, ensureSet, collInsert, hnicks]
    rw [setInsert_of_mem (mem_setInsert_self _ _)]

/-- Concrete instance of C10: users 5 and 6 both named "nick" enter; the
dedup set ends with both keys (length 2) while the members set holds the
one nickname. -/
theorem c10_members_bounded_by_dedup_witness :
    (toString (MemberMessage.mk ⟨5, "nick"⟩).user.id
        ≠ toString (MemberMessage.mk ⟨6, "nick"⟩).user.id) ∧
    ((MemberMessage.mk ⟨6, "nick"⟩).user.nick_name
        = (MemberMessage.mk ⟨5, "nick"⟩).user.nick_name) ∧
    (initState "X" "2024-01-01" 1).members = .pset [] ∧
    (toString (MemberMessage.mk ⟨5, "nick"⟩).user.id ∉
        (initState "X" "2024-01-01" 1).memberCache) ∧
    (toString (MemberMessage.mk ⟨6, "nick"⟩).user.id ∉
        (initState "X" "2024-01-01" 1).memberCache) ∧
    ((processBatch 0 (initState "X" "2024-01-01" 1)
        [⟨"WebcastMemberMessage", .member ⟨⟨5, "nick"⟩⟩⟩]).members.elems.length
      ≤ (processBatch 0 (initState "X" "2024-01-01" 1)
          [⟨"WebcastMemberMessage",
            .member ⟨⟨5, "nick"⟩⟩⟩]).memberCache.length ∧
    toString (MemberMessage.mk ⟨5, "nick"⟩).user.id ∈
      ((applyMemberMessage (applyMemberMessage (initState "X" "2024-01-01" 1)
          (MemberMessage.mk ⟨5, "nick"⟩)).1
          (MemberMessage.mk ⟨6, "nick"⟩)).1).memberCache ∧
    toString (MemberMessage.mk ⟨6, "nick"⟩).user.id ∈
      ((applyMemberMessage (applyMemberMessage (initState "X" "2024-01-01" 1)
          (MemberMessage.mk ⟨5, "nick"⟩)).1
          (MemberMessage.mk ⟨6, "nick"⟩)).1).memberCache ∧
    ((applyMemberMessage (applyMemberMessage (initState "X" "2024-01-01" 1)
        (MemberMessage.mk ⟨5, "nick"⟩)).1
        (MemberMessage.mk ⟨6, "nick"⟩)).1).memberCache.length
      = (initState "X" "2024-01-01" 1).memberCache.length + 2 ∧
    ((applyMemberMessage (applyMemberMessage (initState "X" "2024-01-01" 1)
        (MemberMessage.mk ⟨5, "nick"⟩)).1
        (MemberMessage.mk ⟨6, "nick"⟩)).1).members
      = .pset (setInsert (MemberMessage.mk ⟨5, "nick"⟩).user.nick_name [])) :=
  ⟨by decide, rfl, rfl, by decide, by decide,
   c10_members_bounded_by_dedup 0 "X" "2024-01-01" 1
     [⟨"WebcastMemberMessage", .member ⟨⟨5, "nick"⟩⟩⟩]
     (initState "X" "2024-01-01" 1) [] (MemberMessage.mk ⟨5, "nick"⟩)
     (MemberMessage.mk ⟨6, "nick"⟩)
     (by decide) rfl rfl (by decide) (by decide)⟩

theorem processMessage_of_skipped (now : Nat) (st : CrawlerState)
    (msg : SubMsg) (h : subMessageSkipped msg = true) :
    processMessage now st msg = st := by
  unfold subMessageSkipped at h
  unfold processMessage
  split_ifs at h ⊢ with h1 h2 h3 h4 h5 h6 <;>
    simp_all [Option.isNone_iff_eq_none]

/-- C4: a sub-message whose typed decode fails — or whose method tag is
unknown — is skipped without aborting the rest of its batch: dropping it
from anywhere in the batch leaves the final state unchanged, and a batch
holding a well-formed Gift sub-message next to such a malformed one (in
either order) still applies the Gift mutation. -/
theorem c4_malformed_submessage_isolated (now : Nat) (s : CrawlerState)
    (pre post : List SubMsg) (bad gm : SubMsg) (g : GiftMessage)
    (hbad : subMessageSkipped bad = true)
    (hgm : gm.method = "WebcastGiftMessage")
    (hgp : parseGiftMessage gm.payload = some g) :
    processBatch now s (pre ++ bad :: post) = processBatch now s (pre ++ post) ∧
    processBatch now s [gm, bad] = applyGiftMessage s g ∧
    processBatch now s [bad, gm] = applyGiftMessage s g := by
  have hgift : ∀ st : CrawlerState, processMessage now st gm = applyGiftMessage st g := by
    intro st
    unfold processMessage
    rw [hgm]
    simp [hgp]
  have hskip : ∀ st : CrawlerState, processMessage now st bad = st :=
    fun st => processMessage_of_skipped now st bad hbad
  refine ⟨?_, ?_, ?_⟩
  · unfold processBatch
    rw [List.foldl_append, List.foldl_append, List.foldl_cons,
      hskip (pre.foldl (processMessage now) s)]
  · unfold processBatch
    simp only [List.foldl_cons, List.foldl_nil]
    rw [hgift s, hskip (applyGiftMessage s g)]
  · unfold processBatch
    simp only [List.foldl_cons, List.foldl_nil]
    rw [hskip s, hgift s]

/-- Concrete instance of C4: a batch of one well-formed "rose" Gift
sub-message and one malformed Chat sub-message, in either order, still
counts the gift. -/
theorem c4_malformed_submessage_isolated_witness :
    subMessageSkipped ⟨"WebcastChatMessage", .malformed⟩ = true ∧
    (SubMsg.mk "WebcastGiftMessage"
        (.gift ⟨⟨1, "alice"⟩, ⟨"rose", 5⟩, 2⟩)).method
      = "WebcastGiftMessage" ∧
    parseGiftMessage (SubMsg.mk "WebcastGiftMessage"
        (.gift ⟨⟨1, "alice"⟩, ⟨"rose", 5⟩, 2⟩)).payload
      = some ⟨⟨1, "alice"⟩, ⟨"rose", 5⟩, 2⟩ ∧
    (processBatch 0 (initState "X" "2024-01-01" 1)
        ([] ++ ⟨"WebcastChatMessage", .malformed⟩ :: [])
      = processBatch 0 (initState "X" "2024-01-01" 1) ([] ++ []) ∧
    processBatch 0 (initState "X" "2024-01-01" 1)
        [SubMsg.mk "WebcastGiftMessage"
          (.gift ⟨⟨1, "alice"⟩, ⟨"rose", 5⟩, 2⟩),
         ⟨"WebcastChatMessage", .malformed⟩]
      = applyGiftMessage (initState "X" "2024-01-01" 1)
          ⟨⟨1, "alice"⟩, ⟨"rose", 5⟩, 2⟩ ∧
    processBatch 0 (initState "X" "2024-01-01" 1)
        [⟨"WebcastChatMessage", .malformed⟩,
         SubMsg.mk "WebcastGiftMessage"
          (.gift ⟨⟨1, "alice"⟩, ⟨"rose", 5⟩, 2⟩)]
      = applyGiftMessage (initState "X" "2024-01-01" 1)
          ⟨⟨1, "alice"⟩, ⟨"rose", 5⟩, 2⟩) :=
  ⟨by decide, rfl, rfl,
   c4_malformed_submessage_isolated 0 (initState "X" "2024-01-01" 1) [] []
     ⟨"WebcastChatMessage", .malformed⟩
     (SubMsg.mk "WebcastGiftMessage" (.gift ⟨⟨1, "alice"⟩, ⟨"rose", 5⟩, 2⟩))
     ⟨⟨1, "alice"⟩, ⟨"rose", 5⟩, 2⟩ (by decide) rfl rfl⟩

theorem connectLoop_sigFail (outcomes : Nat → AttemptOutcome)
    {fuel fuel' : Nat} (idx : Nat) (hf : fuel = fuel' + 1)
    (h : outcomes idx = .sigFail) :
    connectLoop outcomes fuel idx = (1, .sigAborted) := by
  subst hf
  unfold connectLoop
  rw [h]

theorem connectLoop_netError (outcomes : Nat → AttemptOutcome)
    {fuel fuel' : Nat} (idx : Nat) (hf : fuel = fuel' + 1)
    (h : outcomes idx = .netError) :
    connectLoop outcomes fuel idx
      = ((connectLoop outcomes fuel' (idx + 1)).1 + 1,
         (connectLoop outcomes fuel' (idx + 1)).2) := by
  subst hf
  conv_lhs => rw [connectLoop]
  rw [h]

/-- C5 fails on the code: with a signature failure on the first attempt and
a connection guaranteed to succeed on the second, `_connectWebSocket`
performs exactly one attempt and returns — the `return` at line 333 leaves
the whole retry loop, so no further attempt happens even though no retry
slot was consumed (1 < 3). -/
theorem c5_sig_failure_counterexample :
    connectWebSocket
        (fun i => if i = 0 then AttemptOutcome.sigFail else AttemptOutcome.ok)
      = (1, ConnectResult.sigAborted) ∧
    ConnectResult.sigAborted ≠ ConnectResult.finished ∧ (1 : Nat) < 3 := by
  refine ⟨rfl, by decide, by decide⟩

/-- C5 amended: during the initial-connection loop (3 attempts, 3 s apart),
a signature failure aborts the **entire** routine immediately — the current
attempt is the last one, no retry slot is consumed because no retry ever
happens — whereas network errors consume one slot each and retry up to the
3-attempt bound. -/
theorem c5_sig_failure_aborts_routine (outcomes : Nat → AttemptOutcome)
    (k : Nat) (hk : k < 3) (hsig : outcomes k = .sigFail)
    (hnet : ∀ i, i < k → outcomes i = .netError) :
    connectWebSocket outcomes = (k + 1, .sigAborted) ∧
    ∀ g : Nat → AttemptOutcome, (∀ i, g i = .netError) →
      connectWebSocket g = (3, .maxRetriesReached) := by
  refine ⟨?_, ?_⟩
  · unfold connectWebSocket
    interval_cases k
    · exact connectLoop_sigFail outcomes 0 rfl hsig
    · rw [connectLoop_netError outcomes 0 rfl (hnet 0 (by omega)),
        connectLoop_sigFail outcomes 1 rfl hsig]
    · rw [connectLoop_netError outcomes 0 rfl (hnet 0 (by omega)),
        connectLoop_netError outcomes 1 rfl (hnet 1 (by omega)),
        connectLoop_sigFail outcomes 2 rfl hsig]
  · intro g hg
    unfold connectWebSocket
    rw [connectLoop_netError g 0 rfl (hg 0),
      connectLoop_netError g 1 rfl (hg 1),
      connectLoop_netError g 2 rfl (hg 2)]
    rfl

/-- Concrete instance of amended C5: one network error (slot consumed),
then a signature failure — two attempts total, routine over; and all
network errors exhaust exactly the 3 slots. -/
theorem c5_sig_failure_aborts_routine_witness :
    (1 : Nat) < 3 ∧
    ((fun i => if i = 0 then AttemptOutcome.netError
        else AttemptOutcome.sigFail) 1 = AttemptOutcome.sigFail) ∧
    (∀ i, i < 1 → (fun i => if i = 0 then AttemptOutcome.netError
        else AttemptOutcome.sigFail) i = AttemptOutcome.netError) ∧
    (connectWebSocket (fun i => if i = 0 then AttemptOutcome.netError
        else AttemptOutcome.sigFail) = (1 + 1, .sigAborted) ∧
     ∀ g : Nat → AttemptOutcome, (∀ i, g i = .netError) →
       connectWebSocket g = (3, .maxRetriesReached)) :=
  ⟨by decide, by decide, by decide,
   c5_sig_failure_aborts_routine
     (fun i => if i = 0 then AttemptOutcome.netError
        else AttemptOutcome.sigFail) 1
     (by decide) (by decide) (by decide)⟩

/-- C6 fails on the code: `_save_data`'s shallow `self.data.copy()` shares
the per-gift dictionaries, so `gift_data["senders"] = list(...)` (line 607)
mutates the live aggregate — after a save the "rose" stat's senders is a
`list`, no longer the `set` it was before. -/
theorem c6_snapshot_mutates_aggregate_counterexample :
    (saveData roseState "2024-01-01T00:00:00").1 ≠ roseState ∧
    (giftStatOf (saveData roseState "2024-01-01T00:00:00").1 "rose").senders
      = .plist ["alice"] ∧
    (giftStatOf roseState "rose").senders = .pset ["alice"] := by
  refine ⟨by decide, by decide, by decide⟩

/-- C6 amended: a snapshot write leaves every field of the aggregate
unchanged **except** the representation of each gift's `senders`, which is
converted in place from set to list; the elements (and all counts, logs,
the members set and scalars) are preserved, only that representation
changes. -/
theorem c6_save_preserves_values (st : CrawlerState) (t : String) :
    (saveData st t).1.live_id = st.live_id ∧
    (saveData st t).1.date = st.date ∧
    (saveData st t).1.session = st.session ∧
    (saveData st t).1.user_id = st.user_id ∧
    (saveData st t).1.nickname = st.nickname ∧
    (saveData st t).1.total_viewers = st.total_viewers ∧
    (saveData st t).1.total_likes = st.total_likes ∧
    (saveData st t).1.chat_messages = st.chat_messages ∧
    (saveData st t).1.members = st.members ∧
    (saveData st t).1.follows = st.follows ∧
    (saveData st t).1.memberCache = st.memberCache ∧
    (saveData st t).1.is_live = st.is_live ∧
    (saveData st t).1.gifts = st.gifts.map
      (fun p => (p.1, { p.2 with senders := collListify p.2.senders })) ∧
    (saveData st t).1.gifts.map
        (fun p => (p.1, p.2.count, p.2.total_value, p.2.senders.elems))
      = st.gifts.map
        (fun p => (p.1, p.2.count, p.2.total_value, p.2.senders.elems)) := by
  refine ⟨rfl, rfl, rfl, rfl, rfl, rfl, rfl, rfl, rfl, rfl, rfl, rfl, rfl, ?_⟩
  show (st.gifts.map
      (fun p => (p.1, { p.2 with senders := collListify p.2.senders }))).map
        (fun p => (p.1, p.2.count, p.2.total_value, p.2.senders.elems))
    = st.gifts.map
        (fun p => (p.1, p.2.count, p.2.total_value, p.2.senders.elems))
  rw [List.map_map]
  apply List.map_congr_left
  intro p _
  simp [Function.comp, collListify_elems]

theorem foldl_max_step_eq_filterMap :
    ∀ (files : List String) (acc : Int),
      files.foldl (fun acc file =>
          match ordinalOfFile file with
          | some n => max acc n
          | none => acc) acc
        = (files.filterMap ordinalOfFile).foldl max acc := by
  intro files
  induction files with
  | nil => intro acc; rfl
  | cons f t ih =>
    intro acc
    rw [List.foldl_cons, List.filterMap_cons]
    cases h : ordinalOfFile f with
    | none => simp only [h]; exact ih acc
    | some n => simp only [h, List.foldl_cons]; exact ih (max acc n)

theorem foldl_max_of_le :
    ∀ (l : List Int) (acc : Int), (∀ o ∈ l, o ≤ acc) → l.foldl max acc = acc := by
  intro l
  induction l with
  | nil => intro acc _; rfl
  | cons x t ih =>
    intro acc h
    rw [List.foldl_cons, max_eq_left (h x (by simp))]
    exact ih acc (fun o ho => h o (by simp [ho]))

theorem foldl_max_of_bounds :
    ∀ (l : List Int) (acc m : Int), m ∈ l → (∀ o ∈ l, o ≤ m) → acc ≤ m →
      l.foldl max acc = m := by
  intro l
  induction l with
  | nil => intro acc m hm; exact absurd hm (List.not_mem_nil m)
  | cons x t ih =>
    intro acc m hm hb hacc
    rw [List.foldl_cons]
    rcases List.mem_cons.mp hm with rfl | hmt
    · rw [max_eq_right hacc]
      exact foldl_max_of_le t m (fun o ho => hb o (by simp [ho]))
    · exact ih (max acc x) m hmt (fun o ho => hb o (by simp [ho]))
        (max_le hacc (hb x (by simp)))

/-- C7: the session ordinal is the maximum ordinal parsed from the existing
persisted files plus one (ordinals of persisted files are ≥ 1, hence the
`max ≥ 0` hypothesis); concretely, files with ordinals 1 and 2 give a new
session ordinal 3; and the ordinal is never changed afterwards: neither
event dispatch nor a snapshot write touches the `session` field. -/
theorem c7_session_ordinal (basenames : List String) (m : Int)
    (hmem : m ∈ basenames.filterMap ordinalOfFile)
    (hub : ∀ o ∈ basenames.filterMap ordinalOfFile, o ≤ m)
    (hm0 : 0 ≤ m) :
    getNextSessionCount basenames = m + 1 ∧
    getNextSessionCount ["X_1_2024-01-01.json", "X_2_2024-01-02.json"] = 3 ∧
    (∀ (now : Nat) (st : CrawlerState) (msgs : List SubMsg),
        (processBatch now st msgs).session = st.session) ∧
    (∀ (st : CrawlerState) (t : String),
        ((saveData st t).1).session = st.session) := by
  refine ⟨?_, by decide, ?_, fun _ _ => rfl⟩
  · unfold getNextSessionCount
    rw [foldl_max_step_eq_filterMap]
    rw [foldl_max_of_bounds _ 0 m hmem hub hm0]
  · intro now st msgs
    have hstep : ∀ (st' : CrawlerState) (msg : SubMsg),
        (processMessage now st' msg).session = st'.session := by
      intro st' msg
      have hmemcase : ∀ y : MemberMessage,
          ((applyMemberMessage st' y).1).session = st'.session := by
        intro y
        by_cases hk : toString y.user.id ∈ st'.memberCache
        · rw [applyMemberMessage_of_mem hk]
        · rw [applyMemberMessage_of_not_mem hk]
      rcases processMessage_shape now st' msg with
        heq | ⟨x, heq⟩ | ⟨x, heq⟩ | ⟨x, heq⟩ | ⟨x, heq⟩ | ⟨x, heq⟩ | ⟨x, heq⟩ <;>
        rw [heq] <;> first | rfl | exact hmemcase x
    clear hmem hub hm0
    induction msgs generalizing st with
    | nil => rfl
    | cons a t ih =>
      show (processBatch now (processMessage now st a) t).session = st.session
      rw [ih (processMessage now st a), hstep st a]

/-- Concrete instance of C7 at files with ordinals 1 and 2 (maximum 2):
the next session ordinal is 3. -/
theorem c7_session_ordinal_witness :
    ((2 : Int) ∈ ["X_1_2024-01-01.json",
        "X_2_2024-01-02.json"].filterMap ordinalOfFile) ∧
    (∀ o ∈ ["X_1_2024-01-01.json",
        "X_2_2024-01-02.json"].filterMap ordinalOfFile, o ≤ (2 : Int)) ∧
    (0 : Int) ≤ 2 ∧
    (getNextSessionCount ["X_1_2024-01-01.json", "X_2_2024-01-02.json"]
        = 2 + 1 ∧
      getNextSessionCount ["X_1_2024-01-01.json", "X_2_2024-01-02.json"] = 3 ∧
      (∀ (now : Nat) (st : CrawlerState) (msgs : List SubMsg),
          (processBatch now st msgs).session = st.session) ∧
      (∀ (st : CrawlerState) (t : String),
          ((saveData st t).1).session = st.session)) :=
  ⟨by decide, by decide, by decide,
   c7_session_ordinal ["X_1_2024-01-01.json", "X_2_2024-01-02.json"] 2
     (by decide) (by decide) (by decide)⟩

/-- C9 fails on the code: when the HTTP GET itself fails, the `room_id`
property only logs — the `else:` block is skipped, nothing is assigned and
nothing returned — so the caller sees `None` and `is_live` stays `True`;
the claimed fallback (`room_id = live_id`, `is_live = false`) does not
happen on this failure mode. -/
theorem c9_resolution_fallback_counterexample :
    roomIdProperty "X" none ⟨none, true⟩ = (none, ⟨none, true⟩) ∧
    (roomIdProperty "X" none ⟨none, true⟩).1 ≠ some "X" ∧
    (roomIdProperty "X" none ⟨none, true⟩).2.is_live ≠ false := by
  refine ⟨rfl, by decide, by decide⟩

/-- C9 amended: with no usable cached id, the fallback
(`room_id = live_id`, `is_live = false`) fires only when the page fetch
succeeds but the `roomId` pattern is absent; when the HTTP GET itself
fails, the property returns `None` and leaves the resolver state (including
`is_live`) untouched. -/
theorem c9_resolution_fallback (live_id text : String) (st : ResolverState)
    (hc : pyTruthy st.cached_room_id = false) :
    (findRoomId text = none →
      roomIdProperty live_id (some text) st
        = (some live_id,
            { st with cached_room_id := some live_id, is_live := false })) ∧
    roomIdProperty live_id none st = (none, st) := by
  constructor
  · intro h
    simp [roomIdProperty, hc, h]
  · simp [roomIdProperty, hc]

/-- Concrete instance of amended C9: a fetched page without the pattern
degrades to the fallback; a failed fetch yields `None` with state kept. -/
theorem c9_resolution_fallback_witness :
    pyTruthy (ResolverState.mk none true).cached_room_id = false ∧
    ((findRoomId "nopattern" = none →
      roomIdProperty "X" (some "nopattern") (ResolverState.mk none true)
        = (some "X", ResolverState.mk (some "X") false)) ∧
     roomIdProperty "X" none (ResolverState.mk none true)
        = (none, ResolverState.mk none true)) :=
  ⟨by decide,
   c9_resolution_fallback "X" "nopattern" (ResolverState.mk none true)
     (by decide)⟩

end Crawler
